import Mathlib

/-!
Verification of the study-assist business-management app (leads, language
batches, university-application students) against its specification.

The definitions below are shallow embeddings of the TypeScript form handlers,
page computations and the SQL migration schema.  Remote-table writes are
modelled as pure state transformations on Lean lists and records; fallible
code is modelled with Option / Except; database rows built by the client are
modelled as association lists of column names to values, mirroring the object
literals passed to the insert calls.
-/

namespace StudyAssist

/-! ### Lead data model (migration: CREATE TYPE lead_status / lead_purpose, leads table) -/

/-- Lead status enum, in the workflow order new → in_progress → converted. -/
inductive LeadStatus
  | new
  | in_progress
  | converted
deriving DecidableEq, Repr

/-- Workflow position of a lead status (new = 0, in_progress = 1, converted = 2). -/
def leadStatusIdx : LeadStatus → Nat
  | .new => 0
  | .in_progress => 1
  | .converted => 2

/-- Lead purpose enum. -/
inductive LeadPurpose
  | application_process
  | language_class
deriving DecidableEq, Repr

/-- A row of the leads table (columns from the migration, ids abstracted to Nat). -/
structure Lead where
  id : Nat
  name : String
  phone : Option String
  email : Option String
  purpose : LeadPurpose
  status : LeadStatus
  notes : Option String
deriving DecidableEq, Repr

/-- The values of EditLeadForm's zod formSchema after validation: the status and
purpose fields are enum-typed, so only enum members reach onSubmit. -/
structure EditLeadValues where
  name : String
  email : Option String
  phone : Option String
  purpose : LeadPurpose
  status : LeadStatus
  notes : Option String
deriving DecidableEq, Repr

/-- Effect of EditLeadForm.onSubmit on the targeted lead row: the update object
sets name, email, phone, purpose, status and notes to the form values. -/
def editLeadApply (v : EditLeadValues) (l : Lead) : Lead :=
  { l with
    name := v.name
    email := v.email
    phone := v.phone
    purpose := v.purpose
    status := v.status
    notes := v.notes }

/-- EditLeadForm.onSubmit as a table transformation: update ... eq id. -/
def editLeadUpdate (leadId : Nat) (v : EditLeadValues) (leads : List Lead) : List Lead :=
  leads.map fun l => if l.id = leadId then editLeadApply v l else l

/-- Effect of ConvertLeadForm.onSubmit on the targeted lead row:
update { status: converted } eq id. -/
def convertLeadApply (l : Lead) : Lead :=
  { l with status := LeadStatus.converted }

/-- ConvertLeadForm's lead-status write as a table transformation. -/
def convertLeadUpdate (leadId : Nat) (leads : List Lead) : List Lead :=
  leads.map fun l => if l.id = leadId then convertLeadApply l else l

/-! ### Application-student data model -/

/-- Application status enum (migration: CREATE TYPE application_status). -/
inductive AppStatus
  | documents_pending
  | documents_submitted
  | application_sent
  | offer_received
  | visa_applied
  | completed
deriving DecidableEq, Repr

/-- The string stored in the status column for each enum member. -/
def appStatusToString : AppStatus → String
  | .documents_pending => "documents_pending"
  | .documents_submitted => "documents_submitted"
  | .application_sent => "application_sent"
  | .offer_received => "offer_received"
  | .visa_applied => "visa_applied"
  | .completed => "completed"

/-- UpdateStatusForm's zod formSchema: z.enum over the six status strings;
any other string fails validation. -/
def clientAppStatusParse (s : String) : Option AppStatus :=
  if s = "documents_pending" then some .documents_pending
  else if s = "documents_submitted" then some .documents_submitted
  else if s = "application_sent" then some .application_sent
  else if s = "offer_received" then some .offer_received
  else if s = "visa_applied" then some .visa_applied
  else if s = "completed" then some .completed
  else none

/-- A row of the application_students table as the Applications page sees it. -/
structure AppStudent where
  id : Nat
  full_name : String
  email : Option String
  phone : Option String
  address : Option String
  date_of_birth : Option String
  passport_number : Option String
  status : AppStatus
  created_at : String
  updated_at : String
deriving DecidableEq, Repr

/-- Effect of UpdateStatusForm.onSubmit on the targeted student row:
update { status: values.status } eq id — nothing is read from or compared with
the current status. -/
def updateStatusRow (target : AppStatus) (s : AppStudent) : AppStudent :=
  { s with status := target }

/-- UpdateStatusForm.onSubmit as a table transformation. -/
def updateStatusTable (studentId : Nat) (target : AppStatus)
    (tbl : List AppStudent) : List AppStudent :=
  tbl.map fun s => if s.id = studentId then updateStatusRow target s else s

/-! ### Insert payloads and creator references (C3, C4)

Each form's onSubmit builds a JavaScript object literal and passes it to a
table insert.  We model those objects as association lists from column name
to a field value.  The submitting session carries both the auth user id
(supabase.auth.getUser) and the profile id looked up from the profiles table;
the forms differ in which of the two (if either) they store. -/

/-- A value placed in a column of an insert payload. -/
inductive FieldVal
  | str (s : String)
  | num (n : Nat)
  | null
  | ref (id : Nat)
deriving DecidableEq, Repr

/-- The authenticated session at submit time: the auth user id and the id of
that user's row in the profiles table. -/
structure SessionCtx where
  user_id : Nat
  profile_id : Nat
deriving DecidableEq, Repr

/-- An insert payload: the column/value pairs of the object literal. -/
abbrev InsertRow := List (String × FieldVal)

/-- Optional string field serialised as the code does with x || null. -/
def optStr : Option String → FieldVal
  | some s => .str s
  | none => .null

/-- AddLeadForm.onSubmit insert into leads: created_by is profile.id. -/
def addLeadInsert (ctx : SessionCtx) (name : String) (phone email : Option String)
    (purpose : LeadPurpose) (notes : Option String) : InsertRow :=
  [("name", .str name),
   ("phone", optStr phone),
   ("email", optStr email),
   ("purpose", .str (match purpose with
     | .application_process => "application_process"
     | .language_class => "language_class")),
   ("notes", optStr notes),
   ("created_by", .ref ctx.profile_id)]

/-- AddStudentForm.onSubmit insert into application_students: created_by is
profile.id. -/
def addStudentInsert (ctx : SessionCtx) (full_name : String)
    (email phone address dob passport : Option String) : InsertRow :=
  [("full_name", .str full_name),
   ("email", optStr email),
   ("phone", optStr phone),
   ("address", optStr address),
   ("date_of_birth", optStr dob),
   ("passport_number", optStr passport),
   ("created_by", .ref ctx.profile_id)]

/-- ConvertLeadForm.onSubmit insert into application_students: created_by is
user.data.user?.id — the auth user id, not the profile id. -/
def convertLeadStudentInsert (ctx : SessionCtx) (full_name : String)
    (email phone address dob passport : Option String) (status : AppStatus) : InsertRow :=
  [("full_name", .str full_name),
   ("email", optStr email),
   ("phone", optStr phone),
   ("address", optStr address),
   ("date_of_birth", optStr dob),
   ("passport_number", optStr passport),
   ("status", .str (appStatusToString status)),
   ("created_by", .ref ctx.user_id)]

/-- CreateBatchForm.onSubmit insert into language_batches: created_by is
profile.id. -/
def createBatchInsert (ctx : SessionCtx) (name class_type start_date end_date : String) :
    InsertRow :=
  [("name", .str name),
   ("class_type", .str class_type),
   ("start_date", .str start_date),
   ("end_date", .str end_date),
   ("created_by", .ref ctx.profile_id)]

/-- AddStudentToBatchForm.onSubmit insert into batch_students: created_by is
profile.id. -/
def addStudentToBatchInsert (ctx : SessionCtx) (batchId : Nat) (student_name : String)
    (contact_email contact_phone : Option String) (enrollment_date : String) : InsertRow :=
  [("batch_id", .ref batchId),
   ("student_name", .str student_name),
   ("contact_email", optStr contact_email),
   ("contact_phone", optStr contact_phone),
   ("enrollment_date", .str enrollment_date),
   ("created_by", .ref ctx.profile_id)]

/-- TrackApplicationForm.onSubmit insert into universities: the payload has no
created_by / uploaded_by column at all. -/
def trackApplicationInsert (studentId : Nat) (university_name course_name : String)
    (application_date response_date status : Option String) : InsertRow :=
  [("student_id", .ref studentId),
   ("university_name", .str university_name),
   ("course_name", .str course_name),
   ("application_date", optStr application_date),
   ("response_date", optStr response_date),
   ("status", optStr status)]

/-- UploadDocumentsForm.onSubmit insert into documents: uploaded_by is
user.data.user?.id — the auth user id. -/
def uploadDocumentsInsert (ctx : SessionCtx) (studentId : Nat)
    (document_type file_name file_path : String) : InsertRow :=
  [("student_id", .ref studentId),
   ("document_type", .str document_type),
   ("file_name", .str file_name),
   ("file_path", .str file_path),
   ("uploaded_by", .ref ctx.user_id)]

/-- StudentApplicationDetails.handleDocumentUpload insert into documents:
uploaded_by is the literal string system. -/
def detailsDocumentInsert (studentId : Nat) (file_name file_path created_at : String) :
    InsertRow :=
  [("student_id", .ref studentId),
   ("file_name", .str file_name),
   ("file_path", .str file_path),
   ("document_type", .str "other"),
   ("created_at", .str created_at),
   ("uploaded_by", .str "system")]

/-- Whether an insert payload carries any creator-reference column. -/
def hasCreatorKey (row : InsertRow) : Bool :=
  row.any fun p => p.1 == "created_by" || p.1 == "uploaded_by"

/-- Columns of the universities table in the migration: no creator column. -/
def universitiesColumns : List String :=
  ["id", "student_id", "university_name", "course_name",
   "application_date", "response_date", "status", "created_at"]

/-! ### Server-side enum validation (C4): the migration's CREATE TYPE statements -/

/-- Values of the Postgres enum lead_status; the leads.status column is typed
with it, so any other string is rejected by the database. -/
def dbLeadStatusValues : List String := ["new", "in_progress", "converted"]

/-- Values of the Postgres enum lead_purpose. -/
def dbLeadPurposeValues : List String := ["application_process", "language_class"]

/-- Values of the Postgres enum application_status. -/
def dbAppStatusValues : List String :=
  ["documents_pending", "documents_submitted", "application_sent",
   "offer_received", "visa_applied", "completed"]

/-- Whether the database accepts a string for the leads.status column. -/
def dbAcceptsLeadStatus (v : String) : Bool := decide (v ∈ dbLeadStatusValues)

/-- Whether the database accepts a string for the leads.purpose column. -/
def dbAcceptsLeadPurpose (v : String) : Bool := decide (v ∈ dbLeadPurposeValues)

/-- Whether the database accepts a string for an application_status column. -/
def dbAcceptsAppStatus (v : String) : Bool := decide (v ∈ dbAppStatusValues)

/-- EditLeadForm's zod formSchema status field: z.enum over the three lead
status strings. -/
def clientLeadStatusParse (s : String) : Option LeadStatus :=
  if s = "new" then some .new
  else if s = "in_progress" then some .in_progress
  else if s = "converted" then some .converted
  else none

/-- AddLeadForm / EditLeadForm zod purpose field: z.enum over the two purposes. -/
def clientLeadPurposeParse (s : String) : Option LeadPurpose :=
  if s = "application_process" then some .application_process
  else if s = "language_class" then some .language_class
  else none

/-! ### Database state and the StudentApplicationDetails operations (C5, C7) -/

/-- A row of the universities table as StudentApplicationDetails reads it. -/
structure UniversityRow where
  id : Nat
  student_id : Nat
  university_name : String
  course_name : String
  application_date : Option String
  response_date : Option String
  status : Option String
  notes : Option String
  application_fee : Nat
deriving DecidableEq, Repr

/-- A row of the documents table. -/
structure DocumentRow where
  id : Nat
  student_id : Nat
  file_name : String
  file_path : String
  document_type : String
  created_at : String
deriving DecidableEq, Repr

/-- A row of the timeline_events audit table. -/
structure TimelineEvent where
  student_id : Nat
  event_type : String
  description : String
  created_at : String
deriving DecidableEq, Repr

/-- The remote tables the Applications features touch. -/
structure Database where
  application_students : List AppStudent
  universities : List UniversityRow
  documents : List DocumentRow
  timeline_events : List TimelineEvent
deriving DecidableEq, Repr

/-- The non-timeline tables of a database state. -/
def mainTables (db : Database) :
    List AppStudent × List UniversityRow × List DocumentRow :=
  (db.application_students, db.universities, db.documents)

/-- addTimelineEvent: inserts one event into timeline_events.  A failed insert
(ok = false) is swallowed — the error is only logged with console.warn and
nothing is thrown, so the state is simply left unchanged.  No update or delete
of timeline_events exists anywhere in the code. -/
def addTimelineEvent (ok : Bool) (e : TimelineEvent) (db : Database) : Database :=
  if ok then { db with timeline_events := db.timeline_events ++ [e] } else db

/-- The studentSchema values StudentApplicationDetails.updateStudent submits. -/
structure StudentUpdateValues where
  full_name : String
  email : Option String
  phone : Option String
  address : Option String
  date_of_birth : Option String
  passport_number : Option String
  status : AppStatus
deriving DecidableEq, Repr

/-- The update object of StudentApplicationDetails.updateStudent applied to the
matching student row (updated_at is also rewritten). -/
def applyStudentUpdate (v : StudentUpdateValues) (now : String) (s : AppStudent) :
    AppStudent :=
  { s with
    full_name := v.full_name
    email := v.email
    phone := v.phone
    address := v.address
    date_of_birth := v.date_of_birth
    passport_number := v.passport_number
    status := v.status
    updated_at := now }

/-- StudentApplicationDetails.updateStudent: write the student row; only if the
write succeeds, record a student_updated timeline event (whose own failure is
swallowed inside addTimelineEvent). -/
def updateStudentOp (sid : Nat) (v : StudentUpdateValues) (now : String)
    (mainOk tlOk : Bool) (db : Database) : Except String Database :=
  if mainOk then
    .ok (addTimelineEvent tlOk
      { student_id := sid, event_type := "student_updated",
        description := "Student information was updated", created_at := now }
      { db with application_students :=
          db.application_students.map fun s =>
            if s.id = sid then applyStudentUpdate v now s else s })
  else .error "update failed"

/-- The universitySchema values of the add/edit university forms. -/
structure UniversityValues where
  university_name : String
  course_name : String
  application_date : Option String
  response_date : Option String
  status : String
  notes : Option String
  application_fee : Nat
deriving DecidableEq, Repr

/-- The row StudentApplicationDetails.addUniversity inserts. -/
def mkUniversityRow (newId sid : Nat) (v : UniversityValues) : UniversityRow :=
  { id := newId, student_id := sid,
    university_name := v.university_name, course_name := v.course_name,
    application_date := v.application_date, response_date := v.response_date,
    status := some v.status, notes := v.notes, application_fee := v.application_fee }

/-- StudentApplicationDetails.addUniversity: insert a universities row, then
best-effort record a university_added event. -/
def addUniversityOp (newId sid : Nat) (v : UniversityValues) (now : String)
    (mainOk tlOk : Bool) (db : Database) : Except String Database :=
  if mainOk then
    .ok (addTimelineEvent tlOk
      { student_id := sid, event_type := "university_added",
        description := "Added application to " ++ v.university_name ++
          " for " ++ v.course_name, created_at := now }
      { db with universities := db.universities ++ [mkUniversityRow newId sid v] })
  else .error "insert failed"

/-- The update object of StudentApplicationDetails.updateUniversity applied to
the matching universities row (student_id and id are untouched). -/
def applyUniversityUpdate (v : UniversityValues) (u : UniversityRow) : UniversityRow :=
  { u with
    university_name := v.university_name
    course_name := v.course_name
    application_date := v.application_date
    response_date := v.response_date
    status := some v.status
    notes := v.notes
    application_fee := v.application_fee }

/-- StudentApplicationDetails.updateUniversity: update the universities row,
then best-effort record a university_updated event. -/
def updateUniversityOp (uid : Nat) (sid : Nat) (v : UniversityValues) (now : String)
    (mainOk tlOk : Bool) (db : Database) : Except String Database :=
  if mainOk then
    .ok (addTimelineEvent tlOk
      { student_id := sid, event_type := "university_updated",
        description := "Updated application status for " ++ v.university_name,
        created_at := now }
      { db with universities :=
          db.universities.map fun u => if u.id = uid then applyUniversityUpdate v u else u })
  else .error "update failed"

/-- StudentApplicationDetails.deleteUniversity: delete the universities row,
then best-effort record a university_deleted event. -/
def deleteUniversityOp (uid : Nat) (sid : Nat) (uname now : String)
    (mainOk tlOk : Bool) (db : Database) : Except String Database :=
  if mainOk then
    .ok (addTimelineEvent tlOk
      { student_id := sid, event_type := "university_deleted",
        description := "Removed application to " ++ uname, created_at := now }
      { db with universities := db.universities.filter fun u => u.id ≠ uid })
  else .error "delete failed"

/-- StudentApplicationDetails.handleDocumentUpload for one file: storage upload
plus documents insert (collapsed into mainOk), then best-effort record a
document_uploaded event. -/
def uploadDocumentOp (d : DocumentRow) (now : String)
    (mainOk tlOk : Bool) (db : Database) : Except String Database :=
  if mainOk then
    .ok (addTimelineEvent tlOk
      { student_id := d.student_id, event_type := "document_uploaded",
        description := "Uploaded document: " ++ d.file_name, created_at := now }
      { db with documents := db.documents ++ [d] })
  else .error "upload failed"

/-- StudentApplicationDetails.downloadDocument: the storage download mutates no
table; on success a document_downloaded event is best-effort recorded. -/
def downloadDocumentOp (d : DocumentRow) (now : String)
    (mainOk tlOk : Bool) (db : Database) : Except String Database :=
  if mainOk then
    .ok (addTimelineEvent tlOk
      { student_id := d.student_id, event_type := "document_downloaded",
        description := "Downloaded document: " ++ d.file_name, created_at := now }
      db)
  else .error "download failed"

/-- StudentApplicationDetails.deleteDocument: storage removal plus documents
delete (collapsed into mainOk), then best-effort record a document_deleted
event. -/
def deleteDocumentOp (d : DocumentRow) (now : String)
    (mainOk tlOk : Bool) (db : Database) : Except String Database :=
  if mainOk then
    .ok (addTimelineEvent tlOk
      { student_id := d.student_id, event_type := "document_deleted",
        description := "Deleted document: " ++ d.file_name, created_at := now }
      { db with documents := db.documents.filter fun x => x.id ≠ d.id })
  else .error "delete failed"

/-- Whether an Except result is a success. -/
def exceptOk {ε α : Type} : Except ε α → Bool
  | .ok _ => true
  | .error _ => false

/-- The main tables of a database operation result, when it succeeded. -/
def resultTables {ε : Type} (r : Except ε Database) :
    Option (List AppStudent × List UniversityRow × List DocumentRow) :=
  match r with
  | .ok db => some (mainTables db)
  | .error _ => none

/-! ### TrackApplicationForm and UpdateStatusForm as database operations (C7) -/

/-- TrackApplicationForm.onSubmit as a database transformation: it only inserts
a universities row; no other table is mentioned in the handler. -/
def trackApplicationSubmit (newId sid : Nat) (v : UniversityValues) (db : Database) :
    Database :=
  { db with universities := db.universities ++ [mkUniversityRow newId sid v] }

/-- StudentApplicationDetails.updateUniversity restricted to its table write:
only the matching universities row is rewritten. -/
def updateUniversitySubmit (uid : Nat) (v : UniversityValues) (db : Database) : Database :=
  { db with universities :=
      db.universities.map fun u => if u.id = uid then applyUniversityUpdate v u else u }

/-- UpdateStatusForm.onSubmit as a database transformation: it only updates the
status column of the matching application_students row. -/
def updateStatusSubmit (sid : Nat) (target : AppStatus) (db : Database) : Database :=
  { db with application_students := updateStatusTable sid target db.application_students }

/-- Every field of a student row except the status (and the row's identity). -/
def nonStatusFields (s : AppStudent) :
    Nat × String × Option String × Option String × Option String ×
      Option String × Option String × String × String :=
  (s.id, s.full_name, s.email, s.phone, s.address, s.date_of_birth,
   s.passport_number, s.created_at, s.updated_at)

/-! ### Optimistic updates on the Applications page (C6) -/

/-- Partial-Student updates as passed to updateStudentOptimistic: any subset of
columns may be present; spreading merges the present ones over the row. -/
structure StudentUpdates where
  id : Option Nat
  full_name : Option String
  email : Option (Option String)
  phone : Option (Option String)
  address : Option (Option String)
  date_of_birth : Option (Option String)
  passport_number : Option (Option String)
  status : Option AppStatus
  created_at : Option String
  updated_at : Option String
deriving DecidableEq, Repr

/-- The object spread of the code: fields present in updates override the row. -/
def applyUpdates (u : StudentUpdates) (s : AppStudent) : AppStudent :=
  { id := u.id.getD s.id
    full_name := u.full_name.getD s.full_name
    email := u.email.getD s.email
    phone := u.phone.getD s.phone
    address := u.address.getD s.address
    date_of_birth := u.date_of_birth.getD s.date_of_birth
    passport_number := u.passport_number.getD s.passport_number
    status := u.status.getD s.status
    created_at := u.created_at.getD s.created_at
    updated_at := u.updated_at.getD s.updated_at }

/-- The immediate local-state change of updateStudentOptimistic: map over the
list, merging the updates into rows whose id matches. -/
def optimisticLocal (sid : Nat) (u : StudentUpdates) (students : List AppStudent) :
    List AppStudent :=
  students.map fun s => if s.id = sid then applyUpdates u s else s

/-- The whole of updateStudentOptimistic: the local list is first set to
optimisticLocal; if the remote write fails, fetchStudents replaces the local
list with the server state, otherwise the optimistic list stays. -/
def updateStudentOptimistic (sid : Nat) (u : StudentUpdates)
    (students serverStudents : List AppStudent) (writeOk : Bool) : List AppStudent :=
  if writeOk then optimisticLocal sid u students else serverStudents

/-! ### Active batch counts (C8)

Dates are modelled as integer time points; the JS comparisons
new Date(b.end_date) > new Date() etc. become integer comparisons against
now. -/

/-- A row of the language_batches table with its dates as time points. -/
structure Batch where
  id : Nat
  name : String
  class_type : String
  start_date : Int
  end_date : Int
deriving DecidableEq, Repr

/-- Dashboard.fetchStats: activeBatches counts batches with end_date after
now — the start date is not consulted. -/
def dashboardActiveBatches (now : Int) (batches : List Batch) : Nat :=
  (batches.filter fun b => now < b.end_date).length

/-- Classes page Active Batches stat: batches with start_date ≤ now ≤ end_date. -/
def classesActiveBatches (now : Int) (batches : List Batch) : Nat :=
  (batches.filter fun b => b.start_date ≤ now && now ≤ b.end_date).length

/-! ### Applications page: filtering and CSV export (C9) -/

/-- JavaScript String.prototype.toLowerCase on the ASCII range, mapped over
the characters. -/
def strToLower (s : String) : String :=
  String.mk (s.data.map Char.toLower)

/-- The first n characters of a string (used for the yyyy-MM-dd date part). -/
def strTake (s : String) (n : Nat) : String :=
  String.mk (s.data.take n)

/-- JavaScript String.prototype.includes: the empty needle always matches;
otherwise the needle must occur as a substring (splitOn produces at least two
pieces exactly when it occurs). -/
def strIncludes (hay needle : String) : Bool :=
  needle == "" || (hay.splitOn needle).length ≥ 2

/-- The search predicate of the Applications page: name or email match the
lowercased query, or the phone contains the raw query; null email/phone do
not match. -/
def matchesSearch (q : String) (s : AppStudent) : Bool :=
  strIncludes (strToLower s.full_name) (strToLower q) ||
  (match s.email with
   | some e => strIncludes (strToLower e) (strToLower q)
   | none => false) ||
  (match s.phone with
   | some p => strIncludes p q
   | none => false)

/-- The status-filter predicate: the sentinel all matches everything. -/
def matchesStatus (filt : String) (s : AppStudent) : Bool :=
  filt == "all" || appStatusToString s.status == filt

/-- The memoised filteredStudents list of the Applications page. -/
def filteredStudents (q filt : String) (students : List AppStudent) : List AppStudent :=
  students.filter fun s => matchesSearch q s && matchesStatus filt s

/-- STATUS_LABELS lookup used by the CSV export. -/
def appStatusLabel : AppStatus → String
  | .documents_pending => "Documents Pending"
  | .documents_submitted => "Documents Submitted"
  | .application_sent => "Application Sent"
  | .offer_received => "Offer Received"
  | .visa_applied => "Visa Applied"
  | .completed => "Completed"

/-- The header names of the per-student CSV objects (their Object.keys). -/
def csvHeaders : List String :=
  ["Full Name", "Email", "Phone", "Status", "Created At"]

/-- The values of one student's CSV row, in header order; the created_at
timestamp is formatted to its yyyy-MM-dd date part. -/
def csvRowValues (s : AppStudent) : List String :=
  [s.full_name, s.email.getD "", s.phone.getD "",
   appStatusLabel s.status, strTake s.created_at 10]

/-- One line of the CSV body: each value wrapped in double quotes, joined by
commas. -/
def csvLine (s : AppStudent) : String :=
  String.intercalate "," ((csvRowValues s).map fun v => "\"" ++ v ++ "\"")

/-- exportToCSV: the headers are Object.keys(csv[0]); on an empty list csv[0]
is undefined and that expression throws a TypeError, so no CSV is produced —
modelled as none.  Otherwise the content is the header line followed by one
quoted line per student, in list order, joined by newlines. -/
def exportToCSV (students : List AppStudent) : Option String :=
  match students with
  | [] => none
  | _ :: _ =>
      some (String.intercalate "\n"
        (String.intercalate "," csvHeaders :: students.map csvLine))

/-! ### Dashboard application stats (C10) -/

/-- Dashboard.fetchStats: applicationsPending counts students whose status is
not completed. -/
def applicationsPending (students : List AppStudent) : Nat :=
  (students.filter fun s => s.status ≠ AppStatus.completed).length

/-- Dashboard.fetchStats: applicationsCompleted counts students whose status is
completed. -/
def applicationsCompleted (students : List AppStudent) : Nat :=
  (students.filter fun s => s.status = AppStatus.completed).length

/-- Math.round of the nonnegative quotient num/den for den > 0:
floor(num/den + 1/2) = (2*num + den) / (2*den) in integer arithmetic. -/
def jsRound (num den : Nat) : Nat := (2 * num + den) / (2 * den)

/-- The Success Rate stat card value: the rounded percentage is computed only
when applicationsCompleted > 0, and is 0 otherwise. -/
def successRate (pending completed : Nat) : Nat :=
  if 0 < completed then jsRound (completed * 100) (pending + completed) else 0

/-! ### Sample data for concrete evaluations -/

/-- A concrete student row, status documents_pending. -/
def sampleStudent : AppStudent :=
  { id := 1, full_name := "Alice Smith", email := some "alice@example.com",
    phone := some "123-456-7890", address := none, date_of_birth := none,
    passport_number := none, status := AppStatus.documents_pending,
    created_at := "2025-08-13T00:00:00Z", updated_at := "2025-08-13T00:00:00Z" }

/-- A concrete partial update touching only the status column. -/
def sampleUpdates : StudentUpdates :=
  { id := none, full_name := none, email := none, phone := none, address := none,
    date_of_birth := none, passport_number := none,
    status := some AppStatus.completed, created_at := none, updated_at := none }

/-- Concrete university-form values. -/
def sampleUniversityValues : UniversityValues :=
  { university_name := "Harvard University",
    course_name := "Master of Science in Computer Science",
    application_date := none, response_date := none, status := "Applied",
    notes := none, application_fee := 0 }

/-- A concrete database state holding one student. -/
def sampleDb : Database :=
  { application_students := [sampleStudent], universities := [],
    documents := [], timeline_events := [] }

/-- A batch that has not started yet at time 5 (starts at 10, ends at 20). -/
def sampleUpcomingBatch : Batch :=
  { id := 1, name := "IELTS Morning", class_type := "IELTS",
    start_date := 10, end_date := 20 }

/-- A batch that is running at time 5 (starts at 0, ends at 20). -/
def sampleRunningBatch : Batch :=
  { id := 2, name := "PTE Evening", class_type := "PTE",
    start_date := 0, end_date := 20 }

/-! ## Theorems -/

/-- Helper: mapping a function over a list pairs each output with its input. -/
theorem zipMapEq {α : Type} (f : α → α) (l : List α) :
    ∀ p ∈ (l.map f).zip l, p.1 = f p.2 := by
  induction l with
  | nil => intro p hp; simp at hp
  | cons a t ih =>
      intro p hp
      rw [List.map_cons, List.zip_cons_cons, List.mem_cons] at hp
      rcases hp with h | h
      · subst h; rfl
      · exact ih p h

/-- C1: counterexample — editing a lead whose status is converted while
selecting status new (an enum value the edit form offers) writes status new,
which is strictly earlier in the workflow order than converted. -/
theorem edit_lead_moves_status_backwards :
    ((editLeadUpdate 1
        { name := "Charlie Brown", email := none, phone := none,
          purpose := LeadPurpose.application_process,
          status := LeadStatus.new, notes := none }
        [{ id := 1, name := "Charlie Brown", phone := none, email := none,
           purpose := LeadPurpose.application_process,
           status := LeadStatus.converted, notes := none }]).map Lead.status
      = [LeadStatus.new]) ∧
    leadStatusIdx LeadStatus.new < leadStatusIdx LeadStatus.converted := by
  exact ⟨rfl, by decide⟩

/-- C1 (amended): converting a lead always writes the maximal status
converted, so conversion never moves the status earlier; editing, however,
writes exactly the status selected in the form regardless of the previous
status, so an edit can move a lead's status backwards (as the counterexample
shows). -/
theorem lead_status_transitions_amended :
    (∀ l : Lead, leadStatusIdx l.status ≤ leadStatusIdx (convertLeadApply l).status) ∧
    (∀ (v : EditLeadValues) (l : Lead), (editLeadApply v l).status = v.status) := by
  constructor
  · intro l
    show leadStatusIdx l.status ≤ leadStatusIdx LeadStatus.converted
    cases l.status <;> decide
  · intro v l
    rfl

/-- C2: the application-student status update is unconstrained by the advisory
ordering: every target status is accepted by the form schema, and for every
current status the write stores exactly the target status on the matching row,
with no precondition relating target to current. -/
theorem update_status_accepts_any_target (cur target : AppStatus) (sid : Nat)
    (s : AppStudent) :
    clientAppStatusParse (appStatusToString target) = some target ∧
    (updateStatusRow target { s with status := cur }).status = target ∧
    (updateStatusTable sid target [{ s with id := sid, status := cur }]).map
      AppStudent.status = [target] := by
  refine ⟨?_, rfl, ?_⟩
  · cases target <;> rfl
  · simp [updateStatusTable, updateStatusRow]

/-- C3: counterexample — the university-record insert built by
TrackApplicationForm.onSubmit carries no creator column at all, and the
universities table of the migration has no column referencing profiles. -/
theorem track_application_insert_has_no_creator :
    hasCreatorKey
      (trackApplicationInsert 7 "Harvard University" "Computer Science"
        none none (some "applied")) = false ∧
    universitiesColumns.contains "created_by" = false ∧
    universitiesColumns.contains "uploaded_by" = false := by
  decide

/-- C3 (amended): every create operation writes a creator column except the
university-record insert: the lead, application-student, language-batch and
batch-student creates set created_by (to the creating user's profile id,
except ConvertLeadForm, which writes the auth user id), and the document
creates set uploaded_by (the auth user id in UploadDocumentsForm, the literal
string system in the details-dialog upload); the universities insert carries
no creator field and the universities table has no creator column. -/
theorem creator_reference_amended (ctx : SessionCtx) (sid bid : Nat)
    (nm ct sd ed dt fn fp ca un cn enr : String)
    (ph em ad dob pp ce cp apd rpd ust nt : Option String)
    (st : AppStatus) (pu : LeadPurpose) :
    (addLeadInsert ctx nm ph em pu nt).lookup "created_by"
      = some (FieldVal.ref ctx.profile_id) ∧
    (addStudentInsert ctx nm em ph ad dob pp).lookup "created_by"
      = some (FieldVal.ref ctx.profile_id) ∧
    (convertLeadStudentInsert ctx nm em ph ad dob pp st).lookup "created_by"
      = some (FieldVal.ref ctx.user_id) ∧
    (createBatchInsert ctx nm ct sd ed).lookup "created_by"
      = some (FieldVal.ref ctx.profile_id) ∧
    (addStudentToBatchInsert ctx bid nm ce cp enr).lookup "created_by"
      = some (FieldVal.ref ctx.profile_id) ∧
    (uploadDocumentsInsert ctx sid dt fn fp).lookup "uploaded_by"
      = some (FieldVal.ref ctx.user_id) ∧
    (detailsDocumentInsert sid fn fp ca).lookup "uploaded_by"
      = some (FieldVal.str "system") ∧
    (trackApplicationInsert sid un cn apd rpd ust).lookup "created_by" = none ∧
    (trackApplicationInsert sid un cn apd rpd ust).lookup "uploaded_by" = none ∧
    universitiesColumns.contains "created_by" = false := by
  exact ⟨rfl, rfl, rfl, rfl, rfl, rfl, rfl, rfl, rfl, rfl⟩

/-- C4: counterexample — validation of the status enums is not confined to the
client: the migration's Postgres enum column types reject values outside the
enums server-side (while accepting the enum members). -/
theorem db_enum_validates_server_side :
    dbAcceptsLeadStatus "cancelled" = false ∧
    dbAcceptsLeadStatus "new" = true ∧
    dbAcceptsLeadPurpose "other" = false ∧
    dbAcceptsAppStatus "done" = false ∧
    dbAcceptsAppStatus "completed" = true := by
  decide

/-- C4 (amended): status fields are enums validated on both client and server:
each client form schema rejects exactly the strings outside the fixed enum,
and the database's enum column types reject exactly the same strings, so the
client and the migration agree on every value. -/
theorem status_enums_client_server_agree :
    ∀ v : String,
      (clientLeadStatusParse v).isSome = dbAcceptsLeadStatus v ∧
      (clientLeadPurposeParse v).isSome = dbAcceptsLeadPurpose v ∧
      (clientAppStatusParse v).isSome = dbAcceptsAppStatus v := by
  intro v
  refine ⟨?_, ?_, ?_⟩
  · unfold clientLeadStatusParse dbAcceptsLeadStatus dbLeadStatusValues
    split_ifs with h1 h2 h3 <;> subst_vars <;> simp_all [List.mem_cons]
  · unfold clientLeadPurposeParse dbAcceptsLeadPurpose dbLeadPurposeValues
    split_ifs with h1 h2 <;> subst_vars <;> simp_all [List.mem_cons]
  · unfold clientAppStatusParse dbAcceptsAppStatus dbAppStatusValues
    split_ifs with h1 h2 h3 h4 h5 h6 <;> subst_vars <;> simp_all [List.mem_cons]

/-- C5: the timeline audit log is append-only and best-effort: addTimelineEvent
only ever appends to timeline_events and touches no other table, and for each
enclosing operation (student update, university add/update/delete, document
upload/download/delete) the operation's success and resulting main tables are
the same whether or not the timeline insert succeeds — a timeline failure
never fails or rolls back the enclosing operation. -/
theorem timeline_append_only_best_effort
    (ok mainOk tlOk : Bool) (e : TimelineEvent) (db : Database)
    (sid newId uid : Nat) (v : StudentUpdateValues) (uv : UniversityValues)
    (un now : String) (d : DocumentRow) :
    (∃ t, (addTimelineEvent ok e db).timeline_events = db.timeline_events ++ t) ∧
    mainTables (addTimelineEvent ok e db) = mainTables db ∧
    exceptOk (updateStudentOp sid v now mainOk tlOk db) = mainOk ∧
    resultTables (updateStudentOp sid v now mainOk tlOk db)
      = resultTables (updateStudentOp sid v now mainOk true db) ∧
    exceptOk (addUniversityOp newId sid uv now mainOk tlOk db) = mainOk ∧
    resultTables (addUniversityOp newId sid uv now mainOk tlOk db)
      = resultTables (addUniversityOp newId sid uv now mainOk true db) ∧
    exceptOk (updateUniversityOp uid sid uv now mainOk tlOk db) = mainOk ∧
    resultTables (updateUniversityOp uid sid uv now mainOk tlOk db)
      = resultTables (updateUniversityOp uid sid uv now mainOk true db) ∧
    exceptOk (deleteUniversityOp uid sid un now mainOk tlOk db) = mainOk ∧
    resultTables (deleteUniversityOp uid sid un now mainOk tlOk db)
      = resultTables (deleteUniversityOp uid sid un now mainOk true db) ∧
    exceptOk (uploadDocumentOp d now mainOk tlOk db) = mainOk ∧
    resultTables (uploadDocumentOp d now mainOk tlOk db)
      = resultTables (uploadDocumentOp d now mainOk true db) ∧
    exceptOk (downloadDocumentOp d now mainOk tlOk db) = mainOk ∧
    resultTables (downloadDocumentOp d now mainOk tlOk db)
      = resultTables (downloadDocumentOp d now mainOk true db) ∧
    exceptOk (deleteDocumentOp d now mainOk tlOk db) = mainOk ∧
    resultTables (deleteDocumentOp d now mainOk tlOk db)
      = resultTables (deleteDocumentOp d now mainOk true db) := by
  have happ : ∃ t, (addTimelineEvent ok e db).timeline_events
      = db.timeline_events ++ t := by
    cases ok
    · exact ⟨[], (List.append_nil _).symm⟩
    · exact ⟨[e], rfl⟩
  refine ⟨happ, ?_, ?_, ?_, ?_, ?_, ?_, ?_, ?_, ?_, ?_, ?_, ?_, ?_, ?_, ?_⟩ <;>
    cases ok <;> cases mainOk <;> cases tlOk <;> rfl

/-- C6: the Applications page's optimistic update maps the local list so that
rows with the given id get the updates merged in and all other rows are
unchanged; if the remote write succeeds the optimistic list is kept, and if it
fails the local list is replaced by the refetched server state. -/
theorem optimistic_update_correct (sid : Nat) (u : StudentUpdates)
    (students serverStudents : List AppStudent) :
    (∀ p ∈ (optimisticLocal sid u students).zip students,
      p.1 = if p.2.id = sid then applyUpdates u p.2 else p.2) ∧
    updateStudentOptimistic sid u students serverStudents true
      = optimisticLocal sid u students ∧
    updateStudentOptimistic sid u students serverStudents false = serverStudents :=
  ⟨zipMapEq _ students, rfl, rfl⟩

/-- C6 witness: the theorem instantiated at a concrete student list. -/
theorem optimistic_update_correct_witness :
    updateStudentOptimistic 1 sampleUpdates [sampleStudent] [] false = [] :=
  (optimistic_update_correct 1 sampleUpdates [sampleStudent] []).2.2

/-- C7: university records and the owning student's row are independent:
adding a university record (TrackApplicationForm) and updating one
(StudentApplicationDetails) leave the application_students table untouched,
and the student-status update leaves the universities table untouched and
changes nothing but the status column of the students it rewrites. -/
theorem university_student_frame_independence (db : Database)
    (newId uid sid : Nat) (v : UniversityValues) (target : AppStatus) :
    (trackApplicationSubmit newId sid v db).application_students
      = db.application_students ∧
    (updateUniversitySubmit uid v db).application_students
      = db.application_students ∧
    (updateStatusSubmit sid target db).universities = db.universities ∧
    (updateStatusSubmit sid target db).documents = db.documents ∧
    ∀ p ∈ ((updateStatusSubmit sid target db).application_students).zip
        db.application_students, nonStatusFields p.1 = nonStatusFields p.2 := by
  refine ⟨rfl, rfl, rfl, rfl, ?_⟩
  intro p hp
  have hp' : p ∈ (db.application_students.map
      (fun s => if s.id = sid then updateStatusRow target s else s)).zip
      db.application_students := hp
  have h := zipMapEq _ db.application_students p hp'
  rw [h]
  by_cases hid : p.2.id = sid
  · rw [if_pos hid]; rfl
  · rw [if_neg hid]

/-- C7 witness: the theorem instantiated at a concrete database state. -/
theorem university_student_frame_independence_witness :
    (updateStatusSubmit 1 AppStatus.completed sampleDb).universities
      = sampleDb.universities :=
  (university_student_frame_independence sampleDb 0 0 1
    sampleUniversityValues AppStatus.completed).2.2.1

/-- C8: counterexample — at time 5 a batch running from 10 to 20 has not
started, yet its end date is after now, so the Dashboard counts it active
while the Classes page does not: the two Active Batches counts disagree. -/
theorem active_batches_counts_disagree :
    dashboardActiveBatches 5 [sampleUpcomingBatch] = 1 ∧
    classesActiveBatches 5 [sampleUpcomingBatch] = 0 := by
  decide

/-- C8 (amended): the Dashboard counts batches whose end date is strictly
after now (including batches that have not started), while the Classes page
counts batches with start date ≤ now ≤ end date; the two counts agree exactly
on lists in which every batch has already started and no batch ends at this
very instant. -/
theorem active_batches_agree_when_started (now : Int) (batches : List Batch)
    (h : ∀ b ∈ batches, b.start_date ≤ now ∧ b.end_date ≠ now) :
    dashboardActiveBatches now batches = classesActiveBatches now batches := by
  induction batches with
  | nil => rfl
  | cons b t ih =>
      have hb := h b (List.mem_cons_self b t)
      have ht : ∀ x ∈ t, x.start_date ≤ now ∧ x.end_date ≠ now :=
        fun x hx => h x (List.mem_cons_of_mem b hx)
      have hrec := ih ht
      simp only [dashboardActiveBatches, classesActiveBatches,
        List.filter_cons] at hrec ⊢
      rcases hb with ⟨h1, h2⟩
      by_cases h3 : now < b.end_date
      · have h4 : now ≤ b.end_date := le_of_lt h3
        simp [h3, h1, h4, hrec]
      · have h4 : ¬ now ≤ b.end_date := by
          intro hle
          exact h3 (lt_of_le_of_ne hle fun he => h2 he.symm)
        simp [h3, h4, hrec]

/-- C8 witness: the amended theorem instantiated at a concrete running batch. -/
theorem active_batches_agree_when_started_witness :
    dashboardActiveBatches 5 [sampleRunningBatch]
      = classesActiveBatches 5 [sampleRunningBatch] :=
  active_batches_agree_when_started 5 [sampleRunningBatch] (by decide)

/-- C9: with a single documents_pending student, an empty search query and the
status filter completed — a state in which the Export CSV button is rendered,
since the full list is non-empty — the filtered list is empty and exportToCSV
produces no CSV at all (Object.keys of the undefined first row throws),
contradicting totality; on the non-empty full list it does produce the header
line plus one line per student. -/
theorem exportToCSV_empty_filtered_crash :
    filteredStudents "" "completed" [sampleStudent] = [] ∧
    ([sampleStudent] : List AppStudent) ≠ [] ∧
    exportToCSV (filteredStudents "" "completed" [sampleStudent]) = none ∧
    exportToCSV [sampleStudent]
      = some (String.intercalate "," csvHeaders ++ "\n" ++ csvLine sampleStudent) := by
  refine ⟨by decide, ?_, by decide, by decide⟩
  exact List.cons_ne_nil _ _

/-- Helper: each student is counted by exactly one of the two Dashboard
filters, so the two counts sum to the number of students. -/
theorem pending_completed_partition (students : List AppStudent) :
    applicationsPending students + applicationsCompleted students
      = students.length := by
  induction students with
  | nil => rfl
  | cons s t ih =>
      by_cases h : s.status = AppStatus.completed <;>
        simp only [applicationsPending, applicationsCompleted, List.filter_cons,
          List.length_cons] at ih ⊢ <;>
        simp [h] at ih ⊢ <;>
        omega

/-- C10: the Dashboard application counts partition the students (pending
counts exactly the non-completed statuses, completed the rest, so they sum to
the total), and the Success Rate is a well-defined value that is 0 when no
application is completed and never exceeds 100 — the rounded division only
happens with the positive denominator pending + completed. -/
theorem success_rate_partition_and_bounds (students : List AppStudent) (p : Nat) :
    applicationsPending students + applicationsCompleted students
      = students.length ∧
    successRate (applicationsPending students) (applicationsCompleted students)
      ≤ 100 ∧
    successRate p 0 = 0 := by
  refine ⟨pending_completed_partition students, ?_, rfl⟩
  · set a := applicationsPending students with ha
    set c := applicationsCompleted students with hc
    unfold successRate
    split_ifs with h
    · have hd : 0 < 2 * (a + c) := by omega
      have h2 : jsRound (c * 100) (a + c) < 101 := by
        unfold jsRound
        rw [Nat.div_lt_iff_lt_mul hd]
        omega
      omega
    · exact Nat.zero_le 100

end StudyAssist
